import Mathlib

/- Shallow embedding of src/server.py (hotel reservation payment MCP server).
   Reservations live in a JSON list scanned linearly; quotes live in the
   in-memory dict QUOTES keyed by quote_id; time is passed explicitly as the
   value of int(time.time()); randomness (random.randint) and uuid hex strings
   are injected as parameters; the HTTP world of the payment gateway is a
   Gateway record, and Python exceptions are the error side of Except. -/

namespace HotelMCP

/-- Audit record stored under `last_amendment` by a successful
`confirm_add_breakfast` (src/server.py lines 436-442). -/
structure Amendment where
  type : String
  amount : Int
  currency : String
  quote_id : String
  timestamp : Int
deriving Repr, DecidableEq

/-- One reservation record from reservations.json, with the fields the server
reads or writes. `bool(r.get("has_breakfast"))` is the Bool field; the audit
fields are absent (`none`) until a successful confirmation writes them. Fields
of the record the server never touches are carried unchanged by the merge
patch and are omitted. -/
structure Reservation where
  reservation_number : String
  has_breakfast : Bool
  last_payment_id : Option String
  last_amendment : Option Amendment
deriving Repr, DecidableEq

/-- One entry of the in-memory QUOTES dict (src/server.py lines 352-359). -/
structure Quote where
  quote_id : String
  amount : Int
  currency : String
  item : String
  reservation_number : String
  created_at : Int
deriving Repr, DecidableEq

/-- The mutable state of the server: the reservations.json list and the QUOTES
dict, the latter as an association list in insertion order (Python dicts keep
insertion order and have unique keys). -/
structure ServerState where
  reservations : List Reservation
  quotes : List (String × Quote)
deriving Repr, DecidableEq

/-- QUOTE_TTL_SECONDS = 15 * 60 (src/server.py line 39). -/
def QUOTE_TTL_SECONDS : Int := 15 * 60

/-- Embeds Python str.strip(): drop whitespace from both ends. Written with
structural list recursion so the kernel can evaluate it on literals
(String.trim is implemented on Substring with fuel-free loops and does not
reduce). -/
def pyStrip (s : String) : String :=
  String.mk (((s.data.dropWhile Char.isWhitespace).reverse.dropWhile Char.isWhitespace).reverse)

/-- Embeds `_find_reservation` (src/server.py lines 55-62): strip the argument,
return None when empty, else the first record whose stripped
reservation_number equals it. -/
def find_reservation (reservations : List Reservation) (reservation_number : String) : Option Reservation :=
  let rn := (pyStrip reservation_number)
  if rn = "" then none
  else reservations.find? (fun r => (pyStrip r.reservation_number) == rn)

/-- Helper for `_update_reservation`: replace the first record whose stripped
key matches, returning the patched record and the new list (the Python loop
with `break`, lines 73-77). -/
def updateFirst (rn : String) (patch : Reservation → Reservation) : List Reservation → Option Reservation × List Reservation
  | [] => (none, [])
  | r :: rest =>
    if (pyStrip r.reservation_number) == rn then
      let u := patch r
      (some u, u :: rest)
    else
      let p := updateFirst rn patch rest
      (p.1, r :: p.2)

/-- Embeds `_update_reservation` (src/server.py lines 65-82): strip the key,
None on empty, apply the merge patch `{**r, **patch}` to the first match and
save; an unmatched key leaves the list as it was. -/
def update_reservation (reservations : List Reservation) (reservation_number : String) (patch : Reservation → Reservation) : Option Reservation × List Reservation :=
  let rn := (pyStrip reservation_number)
  if rn = "" then (none, reservations)
  else updateFirst rn patch reservations

/-- Embeds `_cleanup_quotes` (src/server.py lines 266-271): drop every quote
with `now - created_at > QUOTE_TTL_SECONDS`. -/
def cleanup_quotes (quotes : List (String × Quote)) (now : Int) : List (String × Quote) :=
  quotes.filter (fun kq => decide (now - kq.2.created_at ≤ QUOTE_TTL_SECONDS))

/-- Embeds `QUOTES.get(qid)`: first entry with the given key. -/
def lookupQuote (quotes : List (String × Quote)) (quote_id : String) : Option Quote :=
  (quotes.find? (fun kq => kq.1 == quote_id)).map (fun kq => kq.2)

/-- Embeds `QUOTES[quote_id] = quote` with dict semantics: overwrite an
existing key in place, else append. -/
def insertQuote (quotes : List (String × Quote)) (quote_id : String) (q : Quote) : List (String × Quote) :=
  if quotes.any (fun kq => kq.1 == quote_id) then
    quotes.map (fun kq => if kq.1 == quote_id then (quote_id, q) else kq)
  else
    quotes ++ [(quote_id, q)]

/-- Embeds `QUOTES.pop(qid, None)`: remove the entries with the given key
(a dict has at most one), absent key is a no-op. -/
def popQuote (quotes : List (String × Quote)) (quote_id : String) : List (String × Quote) :=
  quotes.filter (fun kq => !(kq.1 == quote_id))

/-- Result of the lookup_reservation tool (src/server.py lines 302-327):
the `_tool_err` for an empty number, the widgetless `_tool_ok` for a missing
reservation, or the found reservation. -/
inductive LookupResult where
  | invalidInput
  | notFound (reservation_number : String)
  | found (reservation_number : String) (r : Reservation)
deriving Repr, DecidableEq

/-- The `_tool_err` message of lookup_reservation for an empty reservation
number (src/server.py line 309), the InvalidInput outcome of the error
taxonomy. -/
def invalidInputMessage : String := "Reservation number is required."

/-- Embeds the lookup_reservation tool (src/server.py lines 302-327). It reads
no quote state and writes nothing. -/
def lookup_reservation (st : ServerState) (reservation_number : String) : LookupResult :=
  let rn := (pyStrip reservation_number)
  if rn = "" then LookupResult.invalidInput
  else
    match find_reservation st.reservations rn with
    | none => LookupResult.notFound rn
    | some r => LookupResult.found rn r

/-- Models Python `random.randint lo hi`: an integer drawn uniformly from the
inclusive range `[lo, hi]`; `seed` is the injected randomness. -/
def randint (lo hi : Int) (seed : Nat) : Int :=
  lo + ((seed % (hi - lo + 1).toNat : Nat) : Int)

/-- Embeds `quote_id = "q_" + uuid.uuid4().hex[:10]` (src/server.py line 351)
with the uuid hex injected. -/
def make_quote_id (uuidHex : String) : String :=
  "q_" ++ uuidHex.take 10

/-- Result of the quote_add_breakfast tool. -/
inductive QuoteResult where
  | reservationNotFound (reservation_number : String)
  | alreadyIncluded (r : Reservation)
  | quoted (quote_id : String) (amount : Int) (currency : String) (item : String) (r : Reservation)
deriving Repr, DecidableEq

/-- Embeds the quote_add_breakfast tool (src/server.py lines 330-372):
cleanup, lookup, already-included guard, then a fresh quote priced by
randint 10 99, stored in QUOTES and returned with its id, amount, currency
and item. -/
def quote_add_breakfast (seed : Nat) (uuidHex : String) (now : Int) (st : ServerState) (reservation_number : String) : QuoteResult × ServerState :=
  let quotes := cleanup_quotes st.quotes now
  let rn := (pyStrip reservation_number)
  match find_reservation st.reservations rn with
  | none => (QuoteResult.reservationNotFound rn, { st with quotes := quotes })
  | some r =>
    if r.has_breakfast then (QuoteResult.alreadyIncluded r, { st with quotes := quotes })
    else
      let amount := randint 10 99 seed
      let quote_id := make_quote_id uuidHex
      let q : Quote :=
        { quote_id := quote_id, amount := amount, currency := "GBP", item := "breakfast",
          reservation_number := rn, created_at := now }
      (QuoteResult.quoted quote_id amount "GBP" "breakfast" r, { st with quotes := insertQuote quotes quote_id q })

/-- The JSON body charge_payment_api posts to the gateway, restricted to the
fields that vary or matter to the claims: `"value": str(amount)` and the
hardcoded `"currencyCode": "EUR"`, method and tokenized card
(src/server.py lines 211-256). -/
structure PaymentPayload where
  amount_value : String
  currencyCode : String
  method : String
  tokenizedCardNumber : String
deriving Repr, DecidableEq

/-- Embeds the payment_payload literal of charge_payment_api: the amount is
`str(amount)`; the currencyCode is the hardcoded "EUR" regardless of the
`currency` argument (src/server.py line 246). -/
def build_payment_payload (reservation_number : String) (amount : Int) (currency : String) (description : String) (quote_id : String) : PaymentPayload :=
  { amount_value := toString amount,
    currencyCode := "EUR",
    method := "CARD",
    tokenizedCardNumber := "555544G4MN3T1111" }

/-- An HTTP response from the gateway: status code and the
`json()["data"]["reference"]` field. -/
structure HttpResponse where
  status : Nat
  reference : String
deriving Repr, DecidableEq

/-- The external HTTP world of the payment calls: the outcome of the OAuth
token request and, per posted payload, the outcome of the authorization
request. `Except.error` models a raised transport exception. -/
structure Gateway where
  tokenResult : Except String String
  chargeResponse : PaymentPayload → Except String HttpResponse

/-- Embeds get_amadeus_bearer_token (src/server.py lines 167-186): on any
failure the except block logs and re-raises, so the error propagates. -/
def get_amadeus_bearer_token (g : Gateway) : Except String String :=
  g.tokenResult

/-- Embeds `response.raise_for_status()`: raises for 4xx and 5xx statuses,
otherwise returns the response. -/
def raise_for_status (resp : HttpResponse) : Except String HttpResponse :=
  if 400 ≤ resp.status then Except.error ("HTTPError " ++ toString resp.status)
  else Except.ok resp

/-- Embeds charge_payment_api (src/server.py lines 189-263): fetch a token,
post the payload, raise_for_status, then return `(True, reference)`. There is
no branch returning `(False, _)`; every failure is a raised exception. -/
def charge_payment_api (g : Gateway) (reservation_number : String) (amount : Int) (currency : String) (description : String) (quote_id : String) : Except String (Bool × String) :=
  match get_amadeus_bearer_token g with
  | Except.error e => Except.error e
  | Except.ok _bearer_token =>
    match g.chargeResponse (build_payment_payload reservation_number amount currency description quote_id) with
    | Except.error e => Except.error e
    | Except.ok resp0 =>
      match raise_for_status resp0 with
      | Except.error e => Except.error e
      | Except.ok resp => Except.ok (true, resp.reference)

/-- Result of the confirm_add_breakfast tool; constructors match its return
sites in order (src/server.py lines 390, 394, 403, 410, 429, 447, 456). -/
inductive ConfirmResult where
  | reservationNotFound (reservation_number : String)
  | alreadyIncluded (r : Reservation)
  | quoteNotFound
  | quoteMismatch
  | paymentFailed (error : String)
  | updateFailedAfterPayment
  | success (payment_id : String) (updated : Reservation)
deriving Repr, DecidableEq

/-- The message string of each confirm_add_breakfast result, as written in the
source. `alreadyIncluded` and `success` go through `_tool_ok`, the rest
through `_tool_err`. -/
def ConfirmResult.message : ConfirmResult → String
  | ConfirmResult.reservationNotFound rn => "Reservation " ++ rn ++ " not found."
  | ConfirmResult.alreadyIncluded _ => "Breakfast is already included."
  | ConfirmResult.quoteNotFound => "Quote not found or expired. Please request a new quote."
  | ConfirmResult.quoteMismatch => "Quote does not match this reservation. Please request a new quote."
  | ConfirmResult.paymentFailed e => "Payment failed: " ++ e
  | ConfirmResult.updateFailedAfterPayment => "Payment succeeded, but failed to update reservation file."
  | ConfirmResult.success pid _ => "Payment successful (" ++ pid ++ "). Breakfast added."

/-- Whether the result is a `_tool_ok` (success or no-op) rather than a
`_tool_err`. -/
def ConfirmResult.isOk : ConfirmResult → Bool
  | ConfirmResult.alreadyIncluded _ => true
  | ConfirmResult.success _ _ => true
  | _ => false

/-- The merge patch a successful confirmation applies to the reservation
(src/server.py lines 431-444). -/
def breakfastPatch (payment_id : String) (amount : Int) (currency : String) (quote_id : String) (now : Int) (r : Reservation) : Reservation :=
  { r with
    has_breakfast := true,
    last_payment_id := some payment_id,
    last_amendment := some
      { type := "add_breakfast", amount := amount, currency := currency,
        quote_id := quote_id, timestamp := now } }

/-- Embeds the confirm_add_breakfast tool (src/server.py lines 375-464).
`charge` is the payment call at the adapter boundary of the spec; the real
server passes `charge_payment_api g`. A raised exception from the charge is
not caught anywhere in the tool, hence the `Except.error` passthrough. -/
def confirm_add_breakfast
    (charge : String → Int → String → String → String → Except String (Bool × String))
    (now : Int) (st : ServerState) (reservation_number quote_id : String) :
    Except String (ConfirmResult × ServerState) :=
  let quotes := cleanup_quotes st.quotes now
  let rn := (pyStrip reservation_number)
  let qid := (pyStrip quote_id)
  match find_reservation st.reservations rn with
  | none => Except.ok (ConfirmResult.reservationNotFound rn, { st with quotes := quotes })
  | some r =>
    if r.has_breakfast then
      Except.ok (ConfirmResult.alreadyIncluded r, { st with quotes := quotes })
    else
      match lookupQuote quotes qid with
      | none => Except.ok (ConfirmResult.quoteNotFound, { st with quotes := quotes })
      | some q =>
        if q.reservation_number ≠ rn then
          Except.ok (ConfirmResult.quoteMismatch, { st with quotes := quotes })
        else
          match charge rn q.amount q.currency "Add breakfast to reservation" qid with
          | Except.error e => Except.error e
          | Except.ok (success, payment_id_or_error) =>
            if ¬ success then
              Except.ok (ConfirmResult.paymentFailed payment_id_or_error, { st with quotes := quotes })
            else
              let upd := update_reservation st.reservations rn (breakfastPatch payment_id_or_error q.amount q.currency qid now)
              match upd.1 with
              | none => Except.ok (ConfirmResult.updateFailedAfterPayment, { st with reservations := upd.2, quotes := quotes })
              | some updated =>
                Except.ok (ConfirmResult.success payment_id_or_error updated,
                  { reservations := upd.2, quotes := popQuote quotes qid })

/-- A reservation without breakfast, used by the concrete scenarios of §8. -/
def R1 : Reservation :=
  { reservation_number := "R1", has_breakfast := false, last_payment_id := none, last_amendment := none }

/-- A second reservation without breakfast. -/
def R2 : Reservation :=
  { reservation_number := "R2", has_breakfast := false, last_payment_id := none, last_amendment := none }

/-- A reservation that already includes breakfast. -/
def R3 : Reservation :=
  { reservation_number := "R3", has_breakfast := true, last_payment_id := none, last_amendment := none }

/-- A live quote bound to R1, created at time 0. -/
def Q1 : Quote :=
  { quote_id := "q_abc", amount := 42, currency := "GBP", item := "breakfast",
    reservation_number := "R1", created_at := 0 }

/-- A state with reservation R1 and the live quote Q1 in the ledger. -/
def st0 : ServerState := { reservations := [R1], quotes := [("q_abc", Q1)] }

/-- R1 after the successful confirmation of Q1 at time 10 with payment id
PAY1. -/
def R1paid : Reservation :=
  { reservation_number := "R1", has_breakfast := true, last_payment_id := some "PAY1",
    last_amendment := some
      { type := "add_breakfast", amount := 42, currency := "GBP",
        quote_id := "q_abc", timestamp := 10 } }

/-- A payment adapter stub whose charge is accepted with reference PAY1. -/
def chargeOk : String → Int → String → String → String → Except String (Bool × String) :=
  fun _ _ _ _ _ => Except.ok (true, "PAY1")

/-- A payment adapter stub that reports a decline as `success=false`, the
failure shape of the adapter contract in §6 of the spec. -/
def chargeDeclined : String → Int → String → String → String → Except String (Bool × String) :=
  fun _ _ _ _ _ => Except.ok (false, "card declined")

/-- A gateway whose authorization call answers HTTP 200 with reference REF1. -/
def gOk : Gateway :=
  { tokenResult := Except.ok "token", chargeResponse := fun _ => Except.ok { status := 200, reference := "REF1" } }

/-- A gateway whose authorization call answers HTTP 500. -/
def gHttp500 : Gateway :=
  { tokenResult := Except.ok "token", chargeResponse := fun _ => Except.ok { status := 500, reference := "" } }

section QuoteLedgerLemmas

variable (qs : List (String × Quote)) (k : String) (q : Quote) (now : Int)

/-- Popping a key removes it: a lookup of the popped key finds nothing. -/
lemma lookupQuote_popQuote_self : lookupQuote (popQuote qs k) k = none := by
  induction qs with
  | nil => rfl
  | cons e rest ih =>
    unfold popQuote at *
    rw [List.filter_cons]
    by_cases he : e.1 = k
    · rw [if_neg (by simp [he])]
      exact ih
    · rw [if_pos (by simp [he])]
      unfold lookupQuote at *
      rw [List.find?_cons_of_neg]
      · exact ih
      · simp [he]

/-- Overwriting an existing key in place makes it the value a lookup of that
key finds. -/
lemma lookupQuote_map_set (hany : qs.any (fun kq => kq.1 == k) = true) :
    lookupQuote (qs.map (fun kq => if kq.1 == k then (k, q) else kq)) k = some q := by
  induction qs with
  | nil => simp at hany
  | cons e rest ih =>
    rw [List.map_cons]
    by_cases he : e.1 = k
    · rw [if_pos (by simp [he])]
      unfold lookupQuote
      rw [List.find?_cons_of_pos _ (by simp)]
      rfl
    · rw [if_neg (by simp [he])]
      have hr : rest.any (fun kq => kq.1 == k) = true := by
        simp only [List.any_cons, Bool.or_eq_true] at hany
        rcases hany with h1 | h2
        · exact absurd (by simpa using h1) he
        · exact h2
      unfold lookupQuote at *
      rw [List.find?_cons_of_neg]
      · exact ih hr
      · simp [he]

/-- Appending a fresh key makes it the value a lookup of that key finds. -/
lemma lookupQuote_append_new (hnew : ∀ e ∈ qs, e.1 ≠ k) :
    lookupQuote (qs ++ [(k, q)]) k = some q := by
  induction qs with
  | nil =>
    unfold lookupQuote
    rw [List.nil_append, List.find?_cons_of_pos _ (by simp)]
    rfl
  | cons e rest ih =>
    have he := hnew e (List.mem_cons_self _ _)
    rw [List.cons_append]
    unfold lookupQuote at *
    rw [List.find?_cons_of_neg]
    · exact ih (fun x hx => hnew x (List.mem_cons_of_mem _ hx))
    · simp [he]

/-- Setting a key makes it the value a lookup of that key finds. -/
lemma lookupQuote_insertQuote_self : lookupQuote (insertQuote qs k q) k = some q := by
  unfold insertQuote
  by_cases hany : qs.any (fun kq => kq.1 == k) = true
  · rw [if_pos hany]
    exact lookupQuote_map_set qs k q hany
  · rw [if_neg hany]
    refine lookupQuote_append_new qs k q ?_
    intro e he hk
    exact hany (List.any_eq_true.mpr ⟨e, he, by simp [hk]⟩)

/-- Every entry of the swept ledger was in the ledger. -/
lemma mem_of_mem_cleanup (e : String × Quote) (he : e ∈ cleanup_quotes qs now) : e ∈ qs :=
  List.mem_of_mem_filter he

/-- A ledger with no entry under a key looks that key up to nothing. -/
lemma lookupQuote_eq_none_of_keys (hk : ∀ e ∈ qs, e.1 ≠ k) : lookupQuote qs k = none := by
  induction qs with
  | nil => rfl
  | cons e rest ih =>
    have he : e.1 ≠ k := hk e (List.mem_cons_self _ _)
    unfold lookupQuote at *
    rw [List.find?_cons_of_neg]
    · exact ih (fun x hx => hk x (List.mem_cons_of_mem _ hx))
    · simp [he]

/-- The sweep keeps a live quote: if a key looks up to an unexpired quote, it
looks up to the same quote after `cleanup_quotes`. -/
lemma lookupQuote_cleanup_of_live (hq : lookupQuote qs k = some q)
    (hlive : now - q.created_at ≤ QUOTE_TTL_SECONDS) :
    lookupQuote (cleanup_quotes qs now) k = some q := by
  induction qs with
  | nil => simp [lookupQuote] at hq
  | cons e rest ih =>
    by_cases he : e.1 = k
    · have hqe : e.2 = q := by
        unfold lookupQuote at hq
        rw [List.find?_cons_of_pos] at hq
        · simpa using hq
        · simp [he]
      subst hqe
      unfold cleanup_quotes lookupQuote
      rw [List.filter_cons, if_pos (by simpa using hlive)]
      rw [List.find?_cons_of_pos]
      · rfl
      · simp [he]
    · have hq2 : lookupQuote rest k = some q := by
        unfold lookupQuote at hq ⊢
        rw [List.find?_cons_of_neg] at hq
        · exact hq
        · simp [he]
      have := ih hq2
      unfold cleanup_quotes at *
      rw [List.filter_cons]
      by_cases hkeep : decide (now - e.2.created_at ≤ QUOTE_TTL_SECONDS) = true
      · rw [if_pos hkeep]
        unfold lookupQuote at *
        rw [List.find?_cons_of_neg]
        · exact this
        · simp [he]
      · rw [if_neg hkeep]
        exact this

/-- The sweep removes an expired quote: when the ledger has unique keys (a
dict) and a key looks up to an expired quote, the key looks up to nothing
after `cleanup_quotes`. -/
lemma lookupQuote_cleanup_of_expired (huniq : qs.Pairwise (fun a b => a.1 ≠ b.1))
    (hq : lookupQuote qs k = some q)
    (hexp : QUOTE_TTL_SECONDS < now - q.created_at) :
    lookupQuote (cleanup_quotes qs now) k = none := by
  induction qs with
  | nil => simp [lookupQuote] at hq
  | cons e rest ih =>
    rcases List.pairwise_cons.mp huniq with ⟨hhead, htail⟩
    by_cases he : e.1 = k
    · have hqe : e.2 = q := by
        unfold lookupQuote at hq
        rw [List.find?_cons_of_pos] at hq
        · simpa using hq
        · simp [he]
      subst hqe
      have hrest : ∀ x ∈ rest, x.1 ≠ k := by
        intro x hx
        rw [← he]
        exact (hhead x hx).symm
      unfold cleanup_quotes
      rw [List.filter_cons, if_neg (by simpa using not_le.mpr hexp)]
      exact lookupQuote_eq_none_of_keys _ _ (fun x hx =>
        hrest x (mem_of_mem_cleanup _ _ _ hx))
    · have hq2 : lookupQuote rest k = some q := by
        unfold lookupQuote at hq ⊢
        rw [List.find?_cons_of_neg] at hq
        · exact hq
        · simp [he]
      have := ih htail hq2
      unfold cleanup_quotes at *
      rw [List.filter_cons]
      by_cases hkeep : decide (now - e.2.created_at ≤ QUOTE_TTL_SECONDS) = true
      · rw [if_pos hkeep]
        unfold lookupQuote at *
        rw [List.find?_cons_of_neg]
        · exact this
        · simp [he]
      · rw [if_neg hkeep]
        exact this

/-- Every quote returned by a lookup in the swept ledger is unexpired:
expired quotes are never returned as valid after the sweep. -/
lemma lookupQuote_cleanup_live (hq : lookupQuote (cleanup_quotes qs now) k = some q) :
    now - q.created_at ≤ QUOTE_TTL_SECONDS := by
  unfold lookupQuote at hq
  cases hfind : (cleanup_quotes qs now).find? (fun kq => kq.1 == k) with
  | none => rw [hfind] at hq; simp at hq
  | some e =>
    rw [hfind] at hq
    have hmem : e ∈ cleanup_quotes qs now := List.mem_of_find?_eq_some hfind
    have hpass := List.of_mem_filter hmem
    have hqe : e.2 = q := by simpa using hq
    rw [← hqe]
    simpa using hpass

end QuoteLedgerLemmas

/-- The reference pricing policy random.randint 10 99 prices every quote in
the inclusive range 10 to 99. -/
lemma randint_10_99_bounds (seed : Nat) : 10 ≤ randint 10 99 seed ∧ randint 10 99 seed ≤ 99 := by
  unfold randint
  have h90 : ((99 : Int) - 10 + 1).toNat = 90 := by decide
  rw [h90]
  have h : seed % 90 < 90 := Nat.mod_lt _ (by norm_num)
  constructor
  · have h0 : (0 : Int) ≤ ((seed % 90 : Nat) : Int) := Int.ofNat_nonneg _
    omega
  · have h1 : ((seed % 90 : Nat) : Int) < 90 := by exact_mod_cast h
    omega

/-- After an update that patched a record, a scan for the key finds the
patched record, and that record is the patch of some original one; the patch
must keep the reservation number. -/
lemma updateFirst_find (rn : String) (patch : Reservation → Reservation)
    (hpres : ∀ x, (patch x).reservation_number = x.reservation_number) :
    ∀ l u, (updateFirst rn patch l).1 = some u →
      (updateFirst rn patch l).2.find? (fun x => (pyStrip x.reservation_number) == rn) = some u
      ∧ ∃ r₀, u = patch r₀ := by
  intro l
  induction l with
  | nil => intro u h; simp [updateFirst] at h
  | cons r rest ih =>
    intro u h
    by_cases hm : ((pyStrip r.reservation_number) == rn) = true
    · unfold updateFirst at h ⊢
      rw [if_pos hm] at h ⊢
      have hu : u = patch r := by simpa using h.symm
      subst hu
      refine ⟨?_, r, rfl⟩
      change List.find? (fun x => (pyStrip x.reservation_number) == rn) (patch r :: rest) = some (patch r)
      simp only [List.find?_cons, hpres r, hm]
    · unfold updateFirst at h ⊢
      rw [if_neg hm] at h ⊢
      have h2 : (updateFirst rn patch rest).1 = some u := h
      rcases ih u h2 with ⟨hfind, hex⟩
      refine ⟨?_, hex⟩
      change List.find? (fun x => (pyStrip x.reservation_number) == rn) (r :: (updateFirst rn patch rest).2) = some u
      have hf : ((pyStrip r.reservation_number) == rn) = false := by simpa using hm
      simp only [List.find?_cons, hf]
      exact hfind

/-- A scan that finds a record makes the update patch exactly that record. -/
lemma updateFirst_fst_of_find (rn : String) (patch : Reservation → Reservation) :
    ∀ l r, l.find? (fun x => (pyStrip x.reservation_number) == rn) = some r →
      (updateFirst rn patch l).1 = some (patch r) := by
  intro l
  induction l with
  | nil => intro r h; simp at h
  | cons x rest ih =>
    intro r h
    by_cases hm : ((pyStrip x.reservation_number) == rn) = true
    · simp only [List.find?_cons, hm] at h
      have hx : x = r := by simpa using h
      subst hx
      unfold updateFirst
      rw [if_pos hm]
    · have hf : ((pyStrip x.reservation_number) == rn) = false := by simpa using hm
      simp only [List.find?_cons, hf] at h
      unfold updateFirst
      rw [if_neg hm]
      simpa using ih r h

/-- Computation of the success path of confirm_add_breakfast: an existing
reservation without breakfast, a live quote bound to it and an accepted
charge yield the success result, the patched reservation and a ledger with
the quote popped. -/
lemma confirm_success_of
    (charge : String → Int → String → String → String → Except String (Bool × String))
    (now : Int) (st : ServerState) (rn qid : String)
    (r : Reservation) (q : Quote) (pid : String)
    (hfind : find_reservation st.reservations (pyStrip rn) = some r)
    (hb : r.has_breakfast = false)
    (hq : lookupQuote st.quotes (pyStrip qid) = some q)
    (hlive : now - q.created_at ≤ QUOTE_TTL_SECONDS)
    (hmatch : q.reservation_number = (pyStrip rn))
    (hcharge : charge (pyStrip rn) q.amount q.currency "Add breakfast to reservation" (pyStrip qid) = Except.ok (true, pid)) :
    confirm_add_breakfast charge now st rn qid =
      Except.ok (ConfirmResult.success pid (breakfastPatch pid q.amount q.currency (pyStrip qid) now r),
        { reservations := (update_reservation st.reservations (pyStrip rn) (breakfastPatch pid q.amount q.currency (pyStrip qid) now)).2,
          quotes := popQuote (cleanup_quotes st.quotes now) (pyStrip qid) }) := by
  have hq2 := lookupQuote_cleanup_of_live st.quotes (pyStrip qid) q now hq hlive
  have hK : ¬ (pyStrip ((pyStrip rn))) = "" ∧
      st.reservations.find? (fun x => (pyStrip x.reservation_number) == (pyStrip ((pyStrip rn)))) = some r := by
    unfold find_reservation at hfind
    by_cases h0 : (pyStrip ((pyStrip rn))) = ""
    · simp only [h0, if_pos] at hfind
      exact absurd hfind (by simp)
    · rw [if_neg h0] at hfind
      exact ⟨h0, hfind⟩
  have hupd : (update_reservation st.reservations (pyStrip rn) (breakfastPatch pid q.amount q.currency (pyStrip qid) now)).1
      = some (breakfastPatch pid q.amount q.currency (pyStrip qid) now r) := by
    unfold update_reservation
    rw [if_neg hK.1]
    exact updateFirst_fst_of_find _ _ _ _ hK.2
  simp only [confirm_add_breakfast, hfind, hb, hq2, hmatch, hcharge, hupd]
  simp

/-- A state with reservation R1 and an empty quote ledger. -/
def stA : ServerState := { reservations := [R1], quotes := [] }

/-- A state with the already-breakfast reservation R3 and an empty ledger. -/
def stB : ServerState := { reservations := [R3], quotes := [] }

/-- A state with reservations R1 and R2 and the live quote Q1 bound to R1. -/
def stC : ServerState := { reservations := [R1, R2], quotes := [("q_abc", Q1)] }

/-- A quote bound to R1 created at time 0, to be confirmed long after the
TTL. -/
def Qold : Quote :=
  { quote_id := "q_old", amount := 42, currency := "GBP", item := "breakfast",
    reservation_number := "R1", created_at := 0 }

/-- A state with reservation R1 and the quote Qold in the ledger. -/
def stE : ServerState := { reservations := [R1], quotes := [("q_old", Qold)] }

/-- C2: when the looked-up reservation already has breakfast,
confirm_add_breakfast returns the already-included no-op success; the result
does not depend on the payment adapter at all (no payment call can influence
it), the reservation list is unchanged, the ledger is only swept (every live
quote is preserved), and quote_add_breakfast on the same reservation likewise
returns the no-op and creates no quote. -/
theorem C2_already_included_short_circuit
    (charge charge₂ : String → Int → String → String → String → Except String (Bool × String))
    (now : Int) (st : ServerState) (rn qid : String) (r : Reservation)
    (hfind : find_reservation st.reservations (pyStrip rn) = some r)
    (hb : r.has_breakfast = true) :
    confirm_add_breakfast charge now st rn qid =
      Except.ok (ConfirmResult.alreadyIncluded r, { st with quotes := cleanup_quotes st.quotes now })
    ∧ confirm_add_breakfast charge now st rn qid = confirm_add_breakfast charge₂ now st rn qid
    ∧ (∀ k qk, lookupQuote st.quotes k = some qk → now - qk.created_at ≤ QUOTE_TTL_SECONDS →
        lookupQuote (cleanup_quotes st.quotes now) k = some qk)
    ∧ (∀ seed uuidHex, quote_add_breakfast seed uuidHex now st rn =
        (QuoteResult.alreadyIncluded r, { st with quotes := cleanup_quotes st.quotes now })) := by
  have h1 : confirm_add_breakfast charge now st rn qid =
      Except.ok (ConfirmResult.alreadyIncluded r, { st with quotes := cleanup_quotes st.quotes now }) := by
    simp only [confirm_add_breakfast, hfind, hb, if_true]
  have h2 : confirm_add_breakfast charge₂ now st rn qid =
      Except.ok (ConfirmResult.alreadyIncluded r, { st with quotes := cleanup_quotes st.quotes now }) := by
    simp only [confirm_add_breakfast, hfind, hb, if_true]
  refine ⟨h1, h1.trans h2.symm, ?_, ?_⟩
  · intro k qk hk hlive
    exact lookupQuote_cleanup_of_live st.quotes k qk now hk hlive
  · intro seed uuidHex
    simp only [quote_add_breakfast, hfind, hb, if_true]

/-- C2 witness: the short circuit at a concrete state whose reservation R3
already includes breakfast. -/
theorem C2_witness :
    confirm_add_breakfast chargeOk 10 stB "R3" "q_abc" =
      Except.ok (ConfirmResult.alreadyIncluded R3, { stB with quotes := cleanup_quotes stB.quotes 10 })
    ∧ confirm_add_breakfast chargeOk 10 stB "R3" "q_abc" = confirm_add_breakfast chargeDeclined 10 stB "R3" "q_abc"
    ∧ (∀ k qk, lookupQuote stB.quotes k = some qk → 10 - qk.created_at ≤ QUOTE_TTL_SECONDS →
        lookupQuote (cleanup_quotes stB.quotes 10) k = some qk)
    ∧ (∀ seed uuidHex, quote_add_breakfast seed uuidHex 10 stB "R3" =
        (QuoteResult.alreadyIncluded R3, { stB with quotes := cleanup_quotes stB.quotes 10 })) :=
  C2_already_included_short_circuit chargeOk chargeDeclined 10 stB "R3" "q_abc" R3 (by decide) rfl

/-- C5: when the payment adapter reports failure (success=false), the
workflow returns the PaymentFailed error carrying the adapter error text, the
reservation list is untouched and the quote is not consumed: it is still
found in the resulting ledger. -/
theorem C5_payment_failure_is_retry_safe
    (charge : String → Int → String → String → String → Except String (Bool × String))
    (now : Int) (st : ServerState) (rn qid : String)
    (r : Reservation) (q : Quote) (e : String)
    (hfind : find_reservation st.reservations (pyStrip rn) = some r)
    (hb : r.has_breakfast = false)
    (hq : lookupQuote st.quotes (pyStrip qid) = some q)
    (hlive : now - q.created_at ≤ QUOTE_TTL_SECONDS)
    (hmatch : q.reservation_number = (pyStrip rn))
    (hcharge : charge (pyStrip rn) q.amount q.currency "Add breakfast to reservation" (pyStrip qid) = Except.ok (false, e)) :
    confirm_add_breakfast charge now st rn qid =
      Except.ok (ConfirmResult.paymentFailed e, { st with quotes := cleanup_quotes st.quotes now })
    ∧ ({ st with quotes := cleanup_quotes st.quotes now } : ServerState).reservations = st.reservations
    ∧ lookupQuote (cleanup_quotes st.quotes now) (pyStrip qid) = some q := by
  have hq2 := lookupQuote_cleanup_of_live st.quotes (pyStrip qid) q now hq hlive
  refine ⟨?_, rfl, hq2⟩
  simp only [confirm_add_breakfast, hfind, hb, hq2, hmatch, hcharge]
  simp

/-- C5 witness: a declined charge against the concrete state st0 leaves R1
unchanged and the quote q_abc in the ledger. -/
theorem C5_witness :
    confirm_add_breakfast chargeDeclined 10 st0 "R1" "q_abc" =
      Except.ok (ConfirmResult.paymentFailed "card declined", { st0 with quotes := cleanup_quotes st0.quotes 10 })
    ∧ ({ st0 with quotes := cleanup_quotes st0.quotes 10 } : ServerState).reservations = st0.reservations
    ∧ lookupQuote (cleanup_quotes st0.quotes 10) (pyStrip "q_abc") = some Q1 :=
  C5_payment_failure_is_retry_safe chargeDeclined 10 st0 "R1" "q_abc" R1 Q1 "card declined"
    (by decide) rfl (by decide) (by decide) (by decide) rfl

/-- C7: a quote whose age exceeds the TTL is treated like a missing quote:
confirm_add_breakfast fails with the QuoteNotFound outcome, the expired quote
is gone from the swept ledger (the sweep runs before the ledger read), and no
expired quote is ever returned as valid from the swept ledger. -/
theorem C7_expired_equals_missing
    (charge : String → Int → String → String → String → Except String (Bool × String))
    (now : Int) (st : ServerState) (rn qid : String)
    (r : Reservation) (q : Quote)
    (huniq : st.quotes.Pairwise (fun a b => a.1 ≠ b.1))
    (hfind : find_reservation st.reservations (pyStrip rn) = some r)
    (hb : r.has_breakfast = false)
    (hq : lookupQuote st.quotes (pyStrip qid) = some q)
    (hexp : QUOTE_TTL_SECONDS < now - q.created_at) :
    confirm_add_breakfast charge now st rn qid =
      Except.ok (ConfirmResult.quoteNotFound, { st with quotes := cleanup_quotes st.quotes now })
    ∧ lookupQuote (cleanup_quotes st.quotes now) (pyStrip qid) = none
    ∧ (∀ k qk, lookupQuote (cleanup_quotes st.quotes now) k = some qk →
        now - qk.created_at ≤ QUOTE_TTL_SECONDS) := by
  have hnone := lookupQuote_cleanup_of_expired st.quotes (pyStrip qid) q now huniq hq hexp
  refine ⟨?_, hnone, fun k qk hk => lookupQuote_cleanup_live st.quotes k qk now hk⟩
  simp only [confirm_add_breakfast, hfind, hb, hnone]
  simp

/-- C7 witness: confirming the quote q_old of age 10000 seconds fails with
QuoteNotFound and the sweep has removed it. -/
theorem C7_witness :
    confirm_add_breakfast chargeOk 10000 stE "R1" "q_old" =
      Except.ok (ConfirmResult.quoteNotFound, { stE with quotes := cleanup_quotes stE.quotes 10000 })
    ∧ lookupQuote (cleanup_quotes stE.quotes 10000) (pyStrip "q_old") = none
    ∧ (∀ k qk, lookupQuote (cleanup_quotes stE.quotes 10000) k = some qk →
        10000 - qk.created_at ≤ QUOTE_TTL_SECONDS) :=
  C7_expired_equals_missing chargeOk 10000 stE "R1" "q_old" R1 Qold
    (by decide) (by decide) rfl (by decide) (by decide)

/-- C9: every quote created by quote_add_breakfast has an integer amount in
the inclusive range 10 to 99, currency GBP, item breakfast, and is stored in
the ledger bound to the trimmed reservation number; the returned result
carries its quote id, amount, currency and item. -/
theorem C9_quote_shape
    (seed : Nat) (uuidHex : String) (now : Int) (st : ServerState) (rn : String)
    (qid : String) (amount : Int) (currency item : String) (r : Reservation) (st₂ : ServerState)
    (h : quote_add_breakfast seed uuidHex now st rn = (QuoteResult.quoted qid amount currency item r, st₂)) :
    10 ≤ amount ∧ amount ≤ 99 ∧ currency = "GBP" ∧ item = "breakfast"
    ∧ lookupQuote st₂.quotes qid = some
        { quote_id := qid, amount := amount, currency := "GBP", item := "breakfast",
          reservation_number := (pyStrip rn), created_at := now } := by
  simp only [quote_add_breakfast] at h
  split at h
  · simp at h
  · split at h
    · simp at h
    · simp only [Prod.mk.injEq, QuoteResult.quoted.injEq] at h
      obtain ⟨⟨hqid, hamount, hcur, hitem, _⟩, hst⟩ := h
      subst hqid hamount hcur hitem
      refine ⟨(randint_10_99_bounds seed).1, (randint_10_99_bounds seed).2, rfl, rfl, ?_⟩
      rw [← hst]
      exact lookupQuote_insertQuote_self _ _ _

/-- C9 witness: quoting against stA with seed 0 creates the quote
q_deadbeef00 with amount 10 and looks it up in the new ledger. -/
theorem C9_witness :
    10 ≤ (10 : Int) ∧ (10 : Int) ≤ 99 ∧ "GBP" = "GBP" ∧ "breakfast" = "breakfast"
    ∧ lookupQuote (ServerState.mk [R1]
        [("q_deadbeef00",
          { quote_id := "q_deadbeef00", amount := 10, currency := "GBP", item := "breakfast",
            reservation_number := "R1", created_at := 5 })]).quotes "q_deadbeef00" = some
        { quote_id := "q_deadbeef00", amount := 10, currency := "GBP", item := "breakfast",
          reservation_number := (pyStrip "R1"), created_at := 5 } :=
  C9_quote_shape 0 "deadbeef00" 5 stA "R1" "q_deadbeef00" 10 "GBP" "breakfast" R1
    (ServerState.mk [R1]
      [("q_deadbeef00",
        { quote_id := "q_deadbeef00", amount := 10, currency := "GBP", item := "breakfast",
          reservation_number := "R1", created_at := 5 })]) rfl

/-- C3: code-bug evidence. A payment gateway failure does not surface as a
structured success=false result: the HTTP 500 raised by raise_for_status
inside charge_payment_api propagates out of confirm_add_breakfast as an
uncaught exception (the Except.error side), and so does a transport error
raised by the post itself. -/
theorem C3_gateway_failure_escapes_as_exception :
    charge_payment_api gHttp500 "R1" 42 "GBP" "Add breakfast to reservation" "q_abc"
      = Except.error "HTTPError 500"
    ∧ confirm_add_breakfast (charge_payment_api gHttp500) 10 st0 "R1" "q_abc"
      = Except.error "HTTPError 500"
    ∧ (∀ e : String,
        confirm_add_breakfast (fun _ _ _ _ _ => Except.error e) 10 st0 "R1" "q_abc"
          = Except.error e) :=
  ⟨rfl, rfl, fun _ => rfl⟩

/-- C4: code-bug evidence. The payload charge_payment_api posts hardcodes
currencyCode EUR, so the charged currency differs from the quoted currency
GBP, although confirm_add_breakfast does invoke the adapter with the quote
amount and currency, as an echoing adapter stub shows: the payment id it
returns is the currency argument it received, namely GBP. -/
theorem C4_charged_currency_is_hardcoded_eur :
    (build_payment_payload "R1" 42 "GBP" "Add breakfast to reservation" "q_abc").currencyCode = "EUR"
    ∧ Q1.currency = "GBP"
    ∧ (build_payment_payload "R1" Q1.amount Q1.currency "Add breakfast to reservation" "q_abc").currencyCode ≠ Q1.currency
    ∧ (∀ rn amount currency description qid,
        (build_payment_payload rn amount currency description qid).currencyCode = "EUR")
    ∧ confirm_add_breakfast (fun rn amount currency description qid => Except.ok (true, currency)) 10 st0 "R1" "q_abc"
      = Except.ok (ConfirmResult.success "GBP" (breakfastPatch "GBP" 42 "GBP" "q_abc" 10 R1),
          { reservations := [breakfastPatch "GBP" 42 "GBP" "q_abc" 10 R1], quotes := [] }) :=
  ⟨rfl, rfl, by decide, fun _ _ _ _ _ => rfl, rfl⟩

/-- C1 counterexample: after the successful confirmation of quote q_abc for
R1, a second confirm_add_breakfast with the same quote id returns the
already-included no-op success (the guard runs before the ledger read), not
the QuoteNotFound failure the claim states. -/
theorem C1_counterexample :
    confirm_add_breakfast chargeOk 10 st0 "R1" "q_abc"
      = Except.ok (ConfirmResult.success "PAY1" R1paid, { reservations := [R1paid], quotes := [] })
    ∧ confirm_add_breakfast chargeOk 20 { reservations := [R1paid], quotes := [] } "R1" "q_abc"
      = Except.ok (ConfirmResult.alreadyIncluded R1paid, { reservations := [R1paid], quotes := [] })
    ∧ ConfirmResult.alreadyIncluded R1paid ≠ ConfirmResult.quoteNotFound :=
  ⟨rfl, rfl, by decide⟩

/-- C6 counterexample: the quote q_abc is bound to R1, yet confirming it with
the different reservation number R2 (absent from the store) fails with
ReservationNotFound, not with the QuoteMismatch the claim states for every
different reservation number. -/
theorem C6_counterexample :
    lookupQuote st0.quotes "q_abc" = some Q1 ∧ Q1.reservation_number = "R1" ∧ "R2" ≠ "R1"
    ∧ confirm_add_breakfast chargeOk 10 st0 "R2" "q_abc"
      = Except.ok (ConfirmResult.reservationNotFound "R2", { st0 with quotes := cleanup_quotes st0.quotes 10 })
    ∧ ConfirmResult.reservationNotFound "R2" ≠ ConfirmResult.quoteMismatch :=
  ⟨rfl, rfl, by decide, rfl, by decide⟩

/-- C8 counterexample: confirm_add_breakfast with a whitespace-only
reservation number fails through the ReservationNotFound branch with the
message for a missing reservation, not with the InvalidInput message the
claim states for the three tools. -/
theorem C8_counterexample :
    confirm_add_breakfast chargeOk 10 st0 "   " "q_abc"
      = Except.ok (ConfirmResult.reservationNotFound "", { st0 with quotes := cleanup_quotes st0.quotes 10 })
    ∧ (ConfirmResult.reservationNotFound "").message = "Reservation  not found."
    ∧ (ConfirmResult.reservationNotFound "").message ≠ invalidInputMessage :=
  ⟨rfl, rfl, by decide⟩

/-- C8 amended: only lookup_reservation rejects an empty or whitespace-only
reservation number with the InvalidInput error; quote_add_breakfast and
confirm_add_breakfast fail with the ReservationNotFound error instead (they
have no InvalidInput branch), and confirm_add_breakfast with an empty quote
id fails with QuoteNotFound (dict keys are never empty); in every case the
reservation list is unchanged and the ledger only swept of expired quotes. -/
theorem C8_amended :
    (∀ st rn, pyStrip rn = "" → lookup_reservation st rn = LookupResult.invalidInput)
    ∧ (∀ seed uuidHex now st rn, pyStrip rn = "" →
        quote_add_breakfast seed uuidHex now st rn =
          (QuoteResult.reservationNotFound "", { st with quotes := cleanup_quotes st.quotes now }))
    ∧ (∀ charge now st rn qid, pyStrip rn = "" →
        confirm_add_breakfast charge now st rn qid =
          Except.ok (ConfirmResult.reservationNotFound "", { st with quotes := cleanup_quotes st.quotes now }))
    ∧ (∀ charge now st rn qid r, pyStrip qid = "" →
        (∀ e ∈ st.quotes, e.1 ≠ "") →
        find_reservation st.reservations (pyStrip rn) = some r →
        r.has_breakfast = false →
        confirm_add_breakfast charge now st rn qid =
          Except.ok (ConfirmResult.quoteNotFound, { st with quotes := cleanup_quotes st.quotes now })) := by
  have hstrip : pyStrip "" = "" := rfl
  have hfindempty : ∀ l : List Reservation, find_reservation l "" = none := fun l => by
    simp [find_reservation, hstrip]
  refine ⟨?_, ?_, ?_, ?_⟩
  · intro st rn h
    simp [lookup_reservation, h]
  · intro seed uuidHex now st rn h
    simp [quote_add_breakfast, h, hfindempty]
  · intro charge now st rn qid h
    simp [confirm_add_breakfast, h, hfindempty]
  · intro charge now st rn qid r hqid hkeys hfind hb
    have hnone : lookupQuote (cleanup_quotes st.quotes now) (pyStrip qid) = none := by
      rw [hqid]
      exact lookupQuote_eq_none_of_keys (cleanup_quotes st.quotes now) ""
        (fun e he => hkeys e (mem_of_mem_cleanup st.quotes now e he))
    simp only [confirm_add_breakfast, hfind, hb, hnone]
    simp

/-- C8 witness: the four amended behaviours at concrete inputs, a
whitespace-only reservation number and an empty quote id against st0. -/
theorem C8_witness :
    lookup_reservation st0 "   " = LookupResult.invalidInput
    ∧ quote_add_breakfast 0 "deadbeef00" 10 st0 "   " =
        (QuoteResult.reservationNotFound "", { st0 with quotes := cleanup_quotes st0.quotes 10 })
    ∧ confirm_add_breakfast chargeOk 10 st0 "   " "q_abc" =
        Except.ok (ConfirmResult.reservationNotFound "", { st0 with quotes := cleanup_quotes st0.quotes 10 })
    ∧ confirm_add_breakfast chargeOk 10 st0 "R1" "  " =
        Except.ok (ConfirmResult.quoteNotFound, { st0 with quotes := cleanup_quotes st0.quotes 10 }) :=
  ⟨C8_amended.1 st0 "   " (by decide),
   C8_amended.2.1 0 "deadbeef00" 10 st0 "   " (by decide),
   C8_amended.2.2.1 chargeOk 10 st0 "   " "q_abc" (by decide),
   C8_amended.2.2.2 chargeOk 10 st0 "R1" "  " R1 (by decide) (by decide) (by decide) rfl⟩

/-- C10: whenever charge_payment_api returns at all instead of raising, its
success flag is true, and consequently the PaymentFailed branch of
confirm_add_breakfast is unreachable when it calls the real
charge_payment_api: a returned result is never the paymentFailed error. -/
theorem C10_payment_failed_branch_unreachable (g : Gateway) :
    (∀ rn amount currency description qid p,
        charge_payment_api g rn amount currency description qid = Except.ok p → p.1 = true)
    ∧ (∀ now st rn qid res st₂ e,
        confirm_add_breakfast (charge_payment_api g) now st rn qid = Except.ok (res, st₂) →
        res ≠ ConfirmResult.paymentFailed e) := by
  have hok : ∀ rn amount currency description qid p,
      charge_payment_api g rn amount currency description qid = Except.ok p → p.1 = true := by
    intro rn amount currency description qid p h
    unfold charge_payment_api at h
    split at h
    · simp at h
    · split at h
      · simp at h
      · split at h
        · simp at h
        · simp only [Except.ok.injEq] at h
          rw [← h]
  refine ⟨hok, ?_⟩
  intro now st rn qid res st₂ e h
  simp only [confirm_add_breakfast] at h
  split at h
  · simp only [Except.ok.injEq, Prod.mk.injEq] at h
    rw [← h.1]
    simp
  · split at h
    · simp only [Except.ok.injEq, Prod.mk.injEq] at h
      rw [← h.1]
      simp
    · split at h
      · simp only [Except.ok.injEq, Prod.mk.injEq] at h
        rw [← h.1]
        simp
      · split at h
        · simp only [Except.ok.injEq, Prod.mk.injEq] at h
          rw [← h.1]
          simp
        · split at h
          · simp at h
          · rename_i success pid0 hcharge
            split at h
            · rename_i hcond
              exact absurd (hok _ _ _ _ _ _ hcharge) hcond
            · split at h
              · simp only [Except.ok.injEq, Prod.mk.injEq] at h
                rw [← h.1]
                simp
              · simp only [Except.ok.injEq, Prod.mk.injEq] at h
                rw [← h.1]
                simp

/-- C10 witness: the accepting gateway gOk returns success true and the
confirmation it feeds returns the success result, not paymentFailed. -/
theorem C10_witness :
    charge_payment_api gOk "R1" 42 "GBP" "Add breakfast to reservation" "q_abc" = Except.ok (true, "REF1")
    ∧ ((true, "REF1") : Bool × String).1 = true
    ∧ confirm_add_breakfast (charge_payment_api gOk) 10 st0 "R1" "q_abc" =
        Except.ok (ConfirmResult.success "REF1" (breakfastPatch "REF1" 42 "GBP" "q_abc" 10 R1),
          { reservations := [breakfastPatch "REF1" 42 "GBP" "q_abc" 10 R1], quotes := [] })
    ∧ ConfirmResult.success "REF1" (breakfastPatch "REF1" 42 "GBP" "q_abc" 10 R1)
        ≠ ConfirmResult.paymentFailed "declined" :=
  ⟨rfl,
   (C10_payment_failed_branch_unreachable gOk).1 "R1" 42 "GBP" "Add breakfast to reservation" "q_abc"
     (true, "REF1") rfl,
   rfl,
   (C10_payment_failed_branch_unreachable gOk).2 10 st0 "R1" "q_abc"
     (ConfirmResult.success "REF1" (breakfastPatch "REF1" 42 "GBP" "q_abc" 10 R1))
     { reservations := [breakfastPatch "REF1" 42 "GBP" "q_abc" 10 R1], quotes := [] }
     "declined" rfl⟩

/-- C1 amended: a confirmation of a quote succeeds at most once. After a
successful confirm_add_breakfast the quote is consumed (absent from the
ledger) and the updated reservation has breakfast, so a second call with the
same quote id short-circuits on the already-included guard and returns the
no-op success — not QuoteNotFound, and in particular not a second success;
no second payment call is made (the second result holds for every adapter). -/
theorem C1_amended
    (charge charge₂ : String → Int → String → String → String → Except String (Bool × String))
    (now now₂ : Int) (st : ServerState) (rn qid : String)
    (pid : String) (u : Reservation) (st₂ : ServerState)
    (h : confirm_add_breakfast charge now st rn qid = Except.ok (ConfirmResult.success pid u, st₂)) :
    lookupQuote st₂.quotes (pyStrip qid) = none
    ∧ u.has_breakfast = true
    ∧ confirm_add_breakfast charge₂ now₂ st₂ rn qid =
        Except.ok (ConfirmResult.alreadyIncluded u, { st₂ with quotes := cleanup_quotes st₂.quotes now₂ }) := by
  simp only [confirm_add_breakfast] at h
  split at h
  · simp at h
  · rename_i xr r hfindr
    split at h
    · simp at h
    · rename_i hbr
      split at h
      · simp at h
      · rename_i xq q hlq
        split at h
        · simp at h
        · rename_i hne
          split at h
          · simp at h
          · rename_i xc success pid0 hcharge
            split at h
            · simp at h
            · rename_i hsucc
              split at h
              · simp at h
              · rename_i xu updated hupd
                simp only [Except.ok.injEq, Prod.mk.injEq, ConfirmResult.success.injEq] at h
                obtain ⟨⟨hpid, hu⟩, hst⟩ := h
                subst hu
                subst hst
                have hK : ¬ pyStrip (pyStrip rn) = "" ∧
                    (updateFirst (pyStrip (pyStrip rn))
                        (breakfastPatch pid0 q.amount q.currency (pyStrip qid) now) st.reservations).1
                      = some updated := by
                  unfold update_reservation at hupd
                  by_cases h0 : pyStrip (pyStrip rn) = ""
                  · rw [if_pos h0] at hupd
                    exact absurd hupd (by simp)
                  · rw [if_neg h0] at hupd
                    exact ⟨h0, hupd⟩
                obtain ⟨hfound, r₀, hpatch⟩ := updateFirst_find (pyStrip (pyStrip rn))
                  (breakfastPatch pid0 q.amount q.currency (pyStrip qid) now)
                  (fun x => rfl) st.reservations updated hK.2
                have hbreakfast : updated.has_breakfast = true := by
                  rw [hpatch]
                  rfl
                have hres : (update_reservation st.reservations (pyStrip rn)
                      (breakfastPatch pid0 q.amount q.currency (pyStrip qid) now)).2
                    = (updateFirst (pyStrip (pyStrip rn))
                        (breakfastPatch pid0 q.amount q.currency (pyStrip qid) now) st.reservations).2 := by
                  unfold update_reservation
                  rw [if_neg hK.1]
                have hfind₂ : find_reservation (update_reservation st.reservations (pyStrip rn)
                      (breakfastPatch pid0 q.amount q.currency (pyStrip qid) now)).2
                    (pyStrip rn) = some updated := by
                  rw [hres]
                  simp only [find_reservation]
                  rw [if_neg hK.1]
                  exact hfound
                refine ⟨lookupQuote_popQuote_self (cleanup_quotes st.quotes now) (pyStrip qid), hbreakfast, ?_⟩
                simp only [confirm_add_breakfast, hfind₂, hbreakfast]
                simp

/-- C1 witness: the concrete run of C1 at state st0; after the success the
ledger no longer has q_abc, R1 has breakfast, and the second call is the
no-op even against a declining adapter. -/
theorem C1_witness :
    lookupQuote (ServerState.mk [R1paid] []).quotes (pyStrip "q_abc") = none
    ∧ R1paid.has_breakfast = true
    ∧ confirm_add_breakfast chargeDeclined 20 (ServerState.mk [R1paid] []) "R1" "q_abc" =
        Except.ok (ConfirmResult.alreadyIncluded R1paid,
          { ServerState.mk [R1paid] [] with quotes := cleanup_quotes (ServerState.mk [R1paid] []).quotes 20 }) :=
  C1_amended chargeOk chargeDeclined 10 20 st0 "R1" "q_abc" "PAY1" R1paid
    (ServerState.mk [R1paid] []) rfl

/-- C6 amended: when the reservation presented with a live quote exists, has
no breakfast yet, and differs from the reservation the quote is bound to,
confirm_add_breakfast fails with QuoteMismatch and does not consume the
quote (it is still in the swept ledger); an immediately following
confirm_add_breakfast with the correct reservation number and an accepted
charge succeeds. The claim as stated is false when the other reservation
number is unknown: that call fails with ReservationNotFound instead. -/
theorem C6_amended
    (charge charge₂ : String → Int → String → String → String → Except String (Bool × String))
    (now now₂ : Int) (st : ServerState) (rn₂ qid : String)
    (r₂ : Reservation) (q : Quote)
    (hfind₂ : find_reservation st.reservations (pyStrip rn₂) = some r₂)
    (hb₂ : r₂.has_breakfast = false)
    (hq : lookupQuote st.quotes (pyStrip qid) = some q)
    (hlive : now - q.created_at ≤ QUOTE_TTL_SECONDS)
    (hmm : q.reservation_number ≠ pyStrip rn₂) :
    confirm_add_breakfast charge now st rn₂ qid =
      Except.ok (ConfirmResult.quoteMismatch, { st with quotes := cleanup_quotes st.quotes now })
    ∧ lookupQuote (cleanup_quotes st.quotes now) (pyStrip qid) = some q
    ∧ (∀ rn₁ r₁ pid, find_reservation st.reservations (pyStrip rn₁) = some r₁ →
        r₁.has_breakfast = false →
        q.reservation_number = pyStrip rn₁ →
        now₂ - q.created_at ≤ QUOTE_TTL_SECONDS →
        charge₂ (pyStrip rn₁) q.amount q.currency "Add breakfast to reservation" (pyStrip qid)
          = Except.ok (true, pid) →
        confirm_add_breakfast charge₂ now₂ { st with quotes := cleanup_quotes st.quotes now } rn₁ qid =
          Except.ok (ConfirmResult.success pid (breakfastPatch pid q.amount q.currency (pyStrip qid) now₂ r₁),
            { reservations := (update_reservation st.reservations (pyStrip rn₁)
                (breakfastPatch pid q.amount q.currency (pyStrip qid) now₂)).2,
              quotes := popQuote (cleanup_quotes (cleanup_quotes st.quotes now) now₂) (pyStrip qid) })) := by
  have hq2 := lookupQuote_cleanup_of_live st.quotes (pyStrip qid) q now hq hlive
  refine ⟨?_, hq2, ?_⟩
  · simp [confirm_add_breakfast, hfind₂, hb₂, hq2, hmm]
  · intro rn₁ r₁ pid hfind₁ hb₁ hmatch₁ hlive₂ hcharge
    exact confirm_success_of charge₂ now₂ { st with quotes := cleanup_quotes st.quotes now }
      rn₁ qid r₁ q pid hfind₁ hb₁ hq2 hlive₂ hmatch₁ hcharge

/-- C6 witness: quote q_abc bound to R1 confirmed with the existing
reservation R2 fails with QuoteMismatch, the quote survives, and the
immediate retry with R1 succeeds. -/
theorem C6_witness :
    confirm_add_breakfast chargeOk 10 stC "R2" "q_abc" =
      Except.ok (ConfirmResult.quoteMismatch, { stC with quotes := cleanup_quotes stC.quotes 10 })
    ∧ confirm_add_breakfast chargeOk 20 { stC with quotes := cleanup_quotes stC.quotes 10 } "R1" "q_abc" =
        Except.ok (ConfirmResult.success "PAY1" (breakfastPatch "PAY1" Q1.amount Q1.currency (pyStrip "q_abc") 20 R1),
          { reservations := (update_reservation stC.reservations (pyStrip "R1")
              (breakfastPatch "PAY1" Q1.amount Q1.currency (pyStrip "q_abc") 20)).2,
            quotes := popQuote (cleanup_quotes (cleanup_quotes stC.quotes 10) 20) (pyStrip "q_abc") }) :=
  ⟨(C6_amended chargeOk chargeOk 10 20 stC "R2" "q_abc" R2 Q1
      (by decide) rfl (by decide) (by decide) (by decide)).1,
   (C6_amended chargeOk chargeOk 10 20 stC "R2" "q_abc" R2 Q1
      (by decide) rfl (by decide) (by decide) (by decide)).2.2 "R1" R1 "PAY1"
      (by decide) rfl (by decide) (by decide) rfl⟩

end HotelMCP
